import Mathlib

/- Shallow embedding of src/xprocess.py (pytest-xprocess process supervisor).

   Machine-level conventions used throughout:
   * a Python `None`-or-value is an `Option`;
   * Python exceptions escaping a function are an `Except` error value;
   * the OS (process table, signal delivery, wait outcomes) is an explicit
     oracle record passed to the functions that consult it;
   * time is in abstract units (the code sleeps/waits in seconds); only the
     ordering and the 20-unit termination budget matter to the claims. -/

namespace Xproc

/-! ### Pattern-based readiness: CompatStarter.expect and _checkpattern -/

/-- CompatStarter.expect (src/xprocess.py lines 210-211).  Its body is `pass`,
so a call that reaches the body returns Python `None`, modelled as `none`.
(The wiring in `prep`, `functools.partial(self.expect, pattern=wait)`, would in
fact bind the log handle to the `pattern` parameter positionally and raise
TypeError before the body runs; either way the value produced by the pattern
wait is never a truthy `True`.) -/
def expect (pattern : String) (lines : List String) : Option Bool :=
  none

/-- Whether the object `_checkpattern` runs on has a `log` attribute for its
`self.log.debug(line)` call (src/xprocess.py line 218).  Neither
ProcessStarter.__init__ (which sets only `control_dir` and `process`) nor
CompatStarter.prep (which sets only `wait`, `env` and `args`) nor any class
attribute ever defines `log` — only XProcess instances carry one — so the
attribute lookup on a starter raises AttributeError.  This constant records
that fact of the source. -/
def compatStarterHasLog : Bool := false

/-- CompatStarter._checkpattern (src/xprocess.py lines 213-223), modelled over
an abstract read stream, with each iteration in source order.  `reads i` is
what the i-th `f.readline()` call returns (the empty string models an empty
read at end of file); the `time.sleep(0.1)` on an empty read has no effect on
the returned value; `self.log.debug(line)` then runs unconditionally — when
`hasLog` is false (the case for every starter in the source, see
`compatStarterHasLog`) the attribute lookup raises AttributeError, modelled as
the `Except.error`, before the pattern is ever consulted; `pmatch` models
`re.search(pattern, line)` finding a match.  After the match check, `count`
(starting at 50) is decremented on every loop iteration — there is no
`continue` after the sleep — and the loop returns False right after the
decrement that takes `count` below 0, so the recursion carries `count` as a
`Nat` and returns false in place of the decrement that would make it
negative. -/
def checkpattern (hasLog : Bool) (pmatch : String → Bool) (reads : Nat → String) :
    Nat → Nat → Except String Bool
  | i, count =>
    if !hasLog then Except.error "AttributeError"
    else if pmatch (reads i) then Except.ok true
    else
      match count with
      | 0 => Except.ok false
      | c + 1 => checkpattern hasLog pmatch reads (i + 1) c

/-! ### Termination protocol: XProcessInfo.terminate -/

/-- Oracle describing how the OS and the target process respond during one
`terminate` call.  `running n` is the answer `isrunning` gets for pid `n`;
`signalErr` says `psutil.Process(pid)` / `proc.terminate()` raises a
psutil.Error; `gracefulExit = some t` says the process exits `t` units after
the graceful signal (`none`: it ignores it); `killErr` says `proc.kill()`
raises; `killExit = some s` says the process exits `s` units after the kill
signal (`none`: it survives that too). -/
structure ProcEnv where
  running : Nat → Bool
  signalErr : Bool
  gracefulExit : Option Nat
  killErr : Bool
  killExit : Option Nat

/-- The hard-coded `timeout = 20` of XProcessInfo.terminate (line 31). -/
def timeoutBudget : Nat := 20

/-- Observable outcome of one `terminate` call: the returned code (0 no work,
1 terminated, -1 failed), the time at which `proc.kill()` was issued (if it
was), and the total time spent in the waits. -/
structure TermTrace where
  result : Int
  killAt : Option Nat
  elapsed : Nat
deriving DecidableEq

/-- Python truthiness of the optional pid: `not self.pid` holds when the pid
is None or the integer 0. -/
def pidTruthy : Option Nat → Bool
  | none => false
  | some n => n != 0

/-- Liveness of an optional pid against a liveness oracle: False when the pid
is absent, otherwise whatever the OS reports.  This is
XProcessInfo.isrunning (lines 50-57) with `psutil.NoSuchProcess` folded into a
`false` answer of the oracle. -/
def isrunningOn (pid : Option Nat) (alive : Nat → Bool) : Bool :=
  match pid with
  | none => false
  | some n => alive n

/-- XProcessInfo.isrunning specialised to a ProcEnv oracle. -/
def isrunning (pid : Option Nat) (env : ProcEnv) : Bool :=
  isrunningOn pid env.running

/-- Escalation half of XProcessInfo.terminate: the first
`proc.wait(timeout=timeout/2)` raised TimeoutExpired at time `half`, so
`proc.kill()` is issued at `half`, followed by a second
`proc.wait(timeout=timeout/2)`.  A psutil.Error from the kill, or the second
wait timing out (TimeoutExpired is a psutil.Error), is caught by the outer
handler and yields -1; an exit within the second wait yields 1. -/
def terminateEscalate (env : ProcEnv) (half : Nat) : TermTrace :=
  if env.killErr then ⟨-1, some half, half⟩
  else
    match env.killExit with
    | some s => if s ≤ half then ⟨1, some half, half + s⟩ else ⟨-1, some half, half + half⟩
    | none => ⟨-1, some half, half + half⟩

/-- XProcessInfo.terminate (src/xprocess.py lines 22-44).  Returns 0 without
doing anything when `not self.pid or not self.isrunning()`; otherwise sends
the graceful signal and waits up to `timeout/2`: an exit within that wait
returns 1, a psutil.Error while signaling returns -1, and a timeout escalates
via `terminateEscalate`. -/
def terminate (pid : Option Nat) (env : ProcEnv) : TermTrace :=
  if !(pidTruthy pid && isrunning pid env) then ⟨0, none, 0⟩
  else
    let half := timeoutBudget / 2
    if env.signalErr then ⟨-1, none, 0⟩
    else
      match env.gracefulExit with
      | some t => if t ≤ half then ⟨1, none, t⟩ else terminateEscalate env half
      | none => terminateEscalate env half

/-! ### Batch termination: XProcess._infos and XProcess._xkill -/

/-- Value of the Python variable `ret` in XProcess._xkill: it starts as the
integer 0 and, through `ret = ret or (termret==1)`, can become a Bool. -/
inductive PyRet
  | int : Int → PyRet
  | bool : Bool → PyRet
deriving DecidableEq

/-- Python truthiness of such a value. -/
def pyTruthy : PyRet → Bool
  | .int n => n != 0
  | .bool b => b

/-- Python `a or b`: evaluates to `a` when `a` is truthy, else to `b`. -/
def pyOr (a b : PyRet) : PyRet :=
  if pyTruthy a then a else b

/-- Per-entry report lines and aggregate return value of XProcess._xkill. -/
structure XkillReport where
  entries : List (String × Int)
  ret : PyRet

/-- XProcess._xkill (src/xprocess.py lines 145-156) over XProcess._infos
(lines 139-143).  `rootEntries` is `rootdir.listdir()` (one basename per item
under the control root); `_infos` builds exactly one XProcessInfo per entry,
and the loop calls `info.terminate()` on each — `term name` is the oracle for
that result — then writes exactly one `tw.line` per entry (the three report
branches cover the three possible codes 1, -1, 0) and folds
`ret = ret or (termret==1)` starting from the integer 0.  The single source
loop does both things in one pass; they are split into a map and a fold here
with identical results. -/
def xkill (term : String → Int) (rootEntries : List String) : XkillReport :=
  { entries := rootEntries.map fun n => (n, term n)
    ret := rootEntries.foldl (fun r n => pyOr r (.bool (term n == 1))) (.int 0) }

/-! ### The orchestrator: XProcess.ensure -/

/-- Abstract world state an `ensure` call runs against, for one fixed process
name.  `pidFile` is the parsed content of xprocess.PID (`none`: file absent);
`logLen` is the length of xprocess.log at the moment `ensure` opens it for
reading; `running` is the OS liveness oracle consulted by isrunning;
`spawnPid` is the pid `subprocess.Popen` would hand a newly spawned child;
`waitOk` is the truthiness of `starter.wait(f)` for the supplied readiness
strategy on the fresh log. -/
structure World where
  pidFile : Option Nat
  logLen : Nat
  running : Nat → Bool
  spawnPid : Nat
  waitOk : Bool

/-- Everything one `ensure` call did, observable to the caller: whether Popen
ran, which pids `info.terminate()` was invoked on, the pid file content when
the call ended (normally or by raising), the returned pid or the RuntimeError
message, and how the log read handle was left (`readPos` is its absolute read
offset when known; `seekEnd` says the `f.seek(0, 2)` branch ran). -/
structure EnsureEffect where
  spawned : Bool
  terminatedPids : List Nat
  pidFileAfter : Option Nat
  result : Except String (Option Nat)
  openedForRead : Bool
  readPos : Option Nat
  seekEnd : Bool

/-- XProcess.ensure (src/xprocess.py lines 78-137) for one name.  Steps, in
source order: load the info (pid from the pid file); if not restarting and the
recorded process is not running, force restart.  On restart: call
`info.terminate()` when a pid is recorded (even a dead one — terminate itself
then no-ops), spawn, set `info.pid` and write the pid file, leaving the fresh
log handle positioned wherever `starter.wait` left it; a falsy wait result
raises `RuntimeError("Could not start process %s" % name)` — after the pid
file was already written and without touching the child.  Without restart:
open the log for reading and `f.seek(0, 2)` to end of file, returning the
recorded pid.  The registration of the handle in `config._extlogfiles` and the
final re-`getinfo` do not change any modelled state. -/
def ensure (name : String) (restart : Bool) (w : World) :
    EnsureEffect × World :=
  let infoPid := w.pidFile
  let doRestart := restart || !(isrunningOn infoPid w.running)
  if doRestart then
    let termd := match infoPid with
      | some p => [p]
      | none => []
    let pid := w.spawnPid
    let w2 := { w with pidFile := some pid }
    if w.waitOk then
      ({ spawned := true, terminatedPids := termd, pidFileAfter := some pid
         result := Except.ok (some pid), openedForRead := true
         readPos := none, seekEnd := false }, w2)
    else
      ({ spawned := true, terminatedPids := termd, pidFileAfter := some pid
         result := Except.error ("Could not start process " ++ name)
         openedForRead := true, readPos := none, seekEnd := false }, w2)
  else
    ({ spawned := false, terminatedPids := [], pidFileAfter := infoPid
       result := Except.ok infoPid, openedForRead := true
       readPos := some w.logLen, seekEnd := true }, w)

/-! ### Tracked-state loading: XProcessInfo.__init__ -/

/-- Digit run to number, for the model of Python int(). -/
def digitsToNat (l : List Char) : Nat :=
  l.foldl (fun acc c => 10 * acc + (c.toNat - 48)) 0

/-- Surrounding-whitespace strip on a character list. -/
def stripChars (l : List Char) : List Char :=
  ((l.dropWhile Char.isWhitespace).reverse.dropWhile Char.isWhitespace).reverse

/-- Python `int(s)` on the characters of a string: strip surrounding
whitespace, then an optional sign followed by a nonempty run of decimal
digits; anything else raises ValueError, modelled as `none`.  (CPython
additionally accepts underscore digit grouping and non-ASCII digits; the pid
file is written by the library itself as `str(pid)`, so those extensions
cannot occur here and are not modelled.) -/
def pyIntChars (l : List Char) : Option Int :=
  let t := stripChars l
  let core := match t with
    | '-' :: rest => rest
    | '+' :: rest => rest
    | _ => t
  let neg := match t with
    | '-' :: _ => true
    | _ => false
  if core.length != 0 && core.all (·.isDigit) then
    some (if neg then -(digitsToNat core : Int) else (digitsToNat core : Int))
  else none

/-- Python `int(s)` on a string. -/
def pyInt (s : String) : Option Int :=
  pyIntChars s.data

/-- Pid loading in XProcessInfo.__init__ (src/xprocess.py lines 17-20): when
the pid file exists its full content goes through `int(...)` — a ValueError
escapes the constructor — and when it does not, `pid` is simply None. -/
def loadPid (pidFileContent : Option String) : Except String (Option Int) :=
  match pidFileContent with
  | none => Except.ok none
  | some s =>
    match pyInt s with
    | some n => Except.ok (some n)
    | none => Except.error ("invalid literal for int() with base 10: " ++ s)

/-! ## Helper lemmas -/

/-- When the recorded pid is dead or absent, terminate does nothing. -/
theorem terminate_noop_of_dead (pid : Option Nat) (env : ProcEnv)
    (h : isrunning pid env = false) : terminate pid env = ⟨0, none, 0⟩ := by
  unfold terminate
  simp [h]

/-- When the pid is a live nonzero process, terminate proceeds past its guard
into the signal-and-wait protocol. -/
theorem terminate_running (n : Nat) (env : ProcEnv) (hn : n ≠ 0)
    (hr : env.running n = true) :
    terminate (some n) env =
      (if env.signalErr then ⟨-1, none, 0⟩
       else
         match env.gracefulExit with
         | some t => if t ≤ timeoutBudget / 2 then ⟨1, none, t⟩
                     else terminateEscalate env (timeoutBudget / 2)
         | none => terminateEscalate env (timeoutBudget / 2)) := by
  unfold terminate
  simp [pidTruthy, isrunning, isrunningOn, hr, hn]

/-- The escalation branch only ever reports 1 or -1. -/
theorem terminateEscalate_result (env : ProcEnv) (half : Nat) :
    (terminateEscalate env half).result = 1 ∨ (terminateEscalate env half).result = -1 := by
  unfold terminateEscalate
  cases env.killErr
  · rcases env.killExit with _ | s
    · simp
    · by_cases hs : s ≤ half <;> simp [hs]
  · simp

/-- The escalation branch spends at most two half-budgets. -/
theorem terminateEscalate_elapsed (env : ProcEnv) (half : Nat) :
    (terminateEscalate env half).elapsed ≤ half + half := by
  unfold terminateEscalate
  cases env.killErr
  · rcases env.killExit with _ | s
    · simp
    · by_cases hs : s ≤ half <;> simp [hs]
  · simp

/-- A live nonzero process never yields the no-work code 0. -/
theorem terminate_result_ne_zero (n : Nat) (env : ProcEnv) (hn : n ≠ 0)
    (hr : env.running n = true) : (terminate (some n) env).result ≠ 0 := by
  have hn2 : (n != 0) = true := by simp [hn]
  obtain ⟨run, serr, gex, kerr, kex⟩ := env
  simp only [terminate, terminateEscalate, isrunning, isrunningOn, pidTruthy]
  simp only at hr
  cases serr <;> cases kerr <;> rcases gex with _ | t <;> rcases kex with _ | s <;>
    simp [hn2, hr, timeoutBudget] <;> (repeat' split) <;> simp

/-- Every terminate call stays within the total 20-unit budget. -/
theorem terminate_elapsed_le (pid : Option Nat) (env : ProcEnv) :
    (terminate pid env).elapsed ≤ timeoutBudget := by
  rcases pid with _ | n
  · simp [terminate, pidTruthy, timeoutBudget]
  · by_cases hr : env.running n = true
    · by_cases hn : n = 0
      · subst hn
        simp [terminate, pidTruthy, timeoutBudget]
      · have hn2 : (n != 0) = true := by simp [hn]
        obtain ⟨run, serr, gex, kerr, kex⟩ := env
        simp only at hr
        simp only [terminate, terminateEscalate, isrunning, isrunningOn, pidTruthy]
        cases serr <;> cases kerr <;> rcases gex with _ | t <;> rcases kex with _ | s <;>
          simp [hn2, hr, timeoutBudget] <;> (repeat' split) <;> simp <;> omega
    · rw [terminate_noop_of_dead (some n) env
        (by simp [isrunning, isrunningOn]; simpa using hr)]
      simp [timeoutBudget]

/-- Truthiness of a Bool-valued PyRet. -/
theorem pyTruthy_bool (b : Bool) : pyTruthy (.bool b) = b := rfl

/-- Truthiness of the `ret = ret or (termret==1)` fold of _xkill: starting
from any accumulator it is the accumulator's truthiness or-ed with "some entry
terminated". -/
theorem pyTruthy_xkill_fold (term : String → Int) (l : List String) (r : PyRet) :
    pyTruthy (l.foldl (fun a n => pyOr a (.bool (term n == 1))) r)
      = (pyTruthy r || l.any fun n => term n == 1) := by
  induction l generalizing r with
  | nil => simp
  | cons x xs ih =>
    rw [List.foldl_cons, ih]
    cases htr : pyTruthy r <;> simp [pyOr, htr, pyTruthy_bool, Bool.or_assoc]

/-! ## Claims -/

/-- Claim C1 (code bug in the source): the spec says a pattern-configured
strategy's wait returns true the first time a log line matches the pattern and
false after 50 non-matching lines, and the source documents the same intent
(ensure's docstring promises the log "seeked to the line after where the
waitpattern matched"), but no layer of the code delivers it: the function
actually wired up as the pattern wait — `CompatStarter.expect` — has `pass`
as its whole body and returns None for every pattern and every log stream,
never a truthy value; and even the unwired helper `_checkpattern`, called as
the source would call it (on a starter with no `log` attribute), raises
AttributeError at `self.log.debug(line)` on its first iteration — here shown
on the spec's own "READY" example — so it too never returns true. -/
theorem c1_pattern_wait_broken :
    (∀ pattern lines, expect pattern lines = none)
    ∧ expect "READY" ["starting", "READY"] ≠ some true
    ∧ checkpattern compatStarterHasLog (fun s => s == "READY")
        (fun i => if i = 0 then "starting" else "READY") 0 50
        = Except.error "AttributeError" := by
  refine ⟨fun _ _ => rfl, by simp [expect], ?_⟩
  rw [checkpattern.eq_def]
  simp [compatStarterHasLog]

/-- Claim C2: calling ensure twice in succession with restart=false, while the
recorded process stays alive, spawns nothing on either call, returns the same
recorded pid both times, and leaves the world untouched after the first
call. -/
theorem c2_ensure_idempotent (name : String) (w : World) (p : Nat)
    (hp : w.pidFile = some p) (hr : w.running p = true) :
    (ensure name false w).1.spawned = false
    ∧ (ensure name false w).1.result = Except.ok (some p)
    ∧ (ensure name false w).2 = w
    ∧ (ensure name false ((ensure name false w).2)).1.spawned = false
    ∧ (ensure name false ((ensure name false w).2)).1.result = Except.ok (some p) := by
  have key : (ensure name false w).1.spawned = false
      ∧ (ensure name false w).1.result = Except.ok (some p)
      ∧ (ensure name false w).2 = w := by
    simp [ensure, isrunningOn, hp, hr]
  exact ⟨key.1, key.2.1, key.2.2,
    by rw [key.2.2]; exact key.1,
    by rw [key.2.2]; exact key.2.1⟩

/-- Witness for C2 at a concrete world: the recorded pid 5 is alive, both
calls reuse it and neither spawns. -/
theorem c2_ensure_idempotent_witness :
    (ensure "srv" false ⟨some 5, 3, fun n => n == 5, 9, true⟩).1.spawned = false
    ∧ (ensure "srv" false ⟨some 5, 3, fun n => n == 5, 9, true⟩).1.result
        = Except.ok (some 5)
    ∧ (ensure "srv" false ⟨some 5, 3, fun n => n == 5, 9, true⟩).2
        = ⟨some 5, 3, fun n => n == 5, 9, true⟩
    ∧ (ensure "srv" false
        ((ensure "srv" false ⟨some 5, 3, fun n => n == 5, 9, true⟩).2)).1.spawned = false
    ∧ (ensure "srv" false
        ((ensure "srv" false ⟨some 5, 3, fun n => n == 5, 9, true⟩).2)).1.result
        = Except.ok (some 5) :=
  c2_ensure_idempotent "srv" ⟨some 5, 3, fun n => n == 5, 9, true⟩ 5 rfl rfl

/-- Claim C3: for positive recorded pids, terminate returns 0 exactly when the
pid is absent or the process is not running; otherwise the graceful signal and
a wait of up to timeout/2, then escalation, with the default budget 20 split
in two equal halves and never exceeded; an OS error while signaling yields -1
(also after escalation, through the outer handler), and an exit within either
wait yields 1. -/
theorem c3_terminate_protocol (pid : Option Nat) (env : ProcEnv)
    (hpos : ∀ n, pid = some n → 0 < n) :
    timeoutBudget = 20
    ∧ ((terminate pid env).result = 0 ↔ (pid = none ∨ isrunning pid env = false))
    ∧ (terminate pid env).elapsed ≤ timeoutBudget
    ∧ (isrunning pid env = true → env.signalErr = true → (terminate pid env).result = -1)
    ∧ (∀ t, isrunning pid env = true → env.signalErr = false → env.gracefulExit = some t →
        t ≤ timeoutBudget / 2 → terminate pid env = ⟨1, none, t⟩)
    ∧ (∀ s, isrunning pid env = true → env.signalErr = false → env.gracefulExit = none →
        env.killErr = false → env.killExit = some s → s ≤ timeoutBudget / 2 →
        terminate pid env = ⟨1, some (timeoutBudget / 2), timeoutBudget / 2 + s⟩)
    ∧ (isrunning pid env = true → env.signalErr = false → env.gracefulExit = none →
        env.killErr = true → (terminate pid env).result = -1) := by
  have hiff : (terminate pid env).result = 0 ↔ (pid = none ∨ isrunning pid env = false) := by
    constructor
    · intro h0
      by_contra hc
      push_neg at hc
      obtain ⟨hne, hrun⟩ := hc
      rcases pid with _ | n
      · exact hne rfl
      · have hn : n ≠ 0 := Nat.pos_iff_ne_zero.mp (hpos n rfl)
        have hr : env.running n = true := by
          by_contra hf
          exact hrun (by simp [isrunning, isrunningOn]; simpa using hf)
        exact terminate_result_ne_zero n env hn hr h0
    · intro h
      rcases h with h | h
      · subst h; rfl
      · rw [terminate_noop_of_dead _ _ h]
  refine ⟨rfl, hiff, terminate_elapsed_le pid env, ?_, ?_, ?_, ?_⟩
  · intro hrun hserr
    rcases pid with _ | n
    · simp [isrunning, isrunningOn] at hrun
    · have hn : n ≠ 0 := Nat.pos_iff_ne_zero.mp (hpos n rfl)
      have hr : env.running n = true := by simpa [isrunning, isrunningOn] using hrun
      rw [terminate_running n env hn hr]
      simp [hserr]
  · intro t hrun hserr hg ht
    rcases pid with _ | n
    · simp [isrunning, isrunningOn] at hrun
    · have hn : n ≠ 0 := Nat.pos_iff_ne_zero.mp (hpos n rfl)
      have hr : env.running n = true := by simpa [isrunning, isrunningOn] using hrun
      rw [terminate_running n env hn hr]
      simp [hserr, hg, ht]
  · intro s hrun hserr hg hkerr hkx hs
    rcases pid with _ | n
    · simp [isrunning, isrunningOn] at hrun
    · have hn : n ≠ 0 := Nat.pos_iff_ne_zero.mp (hpos n rfl)
      have hr : env.running n = true := by simpa [isrunning, isrunningOn] using hrun
      rw [terminate_running n env hn hr]
      simp [hserr, hg, terminateEscalate, hkerr, hkx, hs]
  · intro hrun hserr hg hkerr
    rcases pid with _ | n
    · simp [isrunning, isrunningOn] at hrun
    · have hn : n ≠ 0 := Nat.pos_iff_ne_zero.mp (hpos n rfl)
      have hr : env.running n = true := by simpa [isrunning, isrunningOn] using hrun
      rw [terminate_running n env hn hr]
      simp [hserr, hg, terminateEscalate, hkerr]

/-- Witness for C3: live pid 7, no errors, exits 4 units after the graceful
signal — terminate reports 1 in 4 units with no kill sent. -/
theorem c3_terminate_protocol_witness :
    terminate (some 7) ⟨fun n => n == 7, false, some 4, false, none⟩ = ⟨1, none, 4⟩ :=
  (c3_terminate_protocol (some 7) ⟨fun n => n == 7, false, some 4, false, none⟩
      (by intro n h; simp at h; omega)).2.2.2.2.1 4 (by decide) rfl rfl (by decide)

/-- Claim C4, counterexample: the claim says a process that produces no log
output makes the pattern wait loop retry forever — the effective timeout is
unbounded because the counter supposedly only decrements on non-empty lines.
On a stream of nothing but empty reads the source's loop does not wait at
all: its first iteration raises AttributeError at `self.log.debug(line)`
(no starter has a `log` attribute), terminating the call immediately. -/
theorem c4_silent_process_counterexample :
    checkpattern compatStarterHasLog (fun s => s == "READY") (fun _ => "") 0 50
      = Except.error "AttributeError" := by
  rw [checkpattern.eq_def]
  simp [compatStarterHasLog]

/-- Claim C4 as amended: for a process that produces no log output at all —
indeed for every stream, pattern and retry budget — the wait loop neither
retries forever nor runs its counter down: every `_checkpattern` call raises
AttributeError at the `self.log.debug(line)` of its first iteration, before
any pattern match or counter decrement, because neither CompatStarter nor
ProcessStarter defines a `log` attribute.  The effective timeout is not
unbounded; the call fails immediately (and the helper is dead code anyway —
the wait actually wired up for a pattern strategy is `expect`). -/
theorem c4_wait_bounded (pmatch : String → Bool) (reads : Nat → String)
    (i count : Nat) :
    checkpattern compatStarterHasLog pmatch reads i count
      = Except.error "AttributeError" := by
  rw [checkpattern.eq_def]
  simp [compatStarterHasLog]

/-- Claim C5: whenever an ensure call launches and the readiness wait comes
back falsy, ensure raises a RuntimeError whose message names the process; at
that point the pid file already holds the fresh child's pid, the spawn did
happen, and the child was not among the pids terminate was invoked on (only a
previously recorded, distinct pid can be). -/
theorem c5_startup_failure (name : String) (restart : Bool) (w : World)
    (hw : w.waitOk = false)
    (hlaunch : (restart || !(isrunningOn w.pidFile w.running)) = true)
    (hfresh : w.pidFile ≠ some w.spawnPid) :
    (ensure name restart w).1.result
        = Except.error ("Could not start process " ++ name)
    ∧ (ensure name restart w).1.pidFileAfter = some w.spawnPid
    ∧ (ensure name restart w).1.spawned = true
    ∧ w.spawnPid ∉ (ensure name restart w).1.terminatedPids := by
  rcases hpid : w.pidFile with _ | p
  · simp [ensure, hw, hpid, isrunningOn]
  · rw [hpid] at hlaunch
    have hc : restart = true ∨ w.running p = false := by
      simpa [isrunningOn] using hlaunch
    have hne : ¬ (w.spawnPid = p) := fun e => hfresh (by rw [hpid, e])
    simp [ensure, hw, hpid, isrunningOn, hc, hne]

/-- Witness for C5: a dead recorded pid 5 forces a relaunch as child 9, the
wait is falsy, and ensure fails with the named error while pid file holds 9
and 9 was never terminated. -/
theorem c5_startup_failure_witness :
    (ensure "db" false ⟨some 5, 3, fun _ => false, 9, false⟩).1.result
        = Except.error ("Could not start process " ++ "db")
    ∧ (ensure "db" false ⟨some 5, 3, fun _ => false, 9, false⟩).1.pidFileAfter = some 9
    ∧ (ensure "db" false ⟨some 5, 3, fun _ => false, 9, false⟩).1.spawned = true
    ∧ 9 ∉ (ensure "db" false ⟨some 5, 3, fun _ => false, 9, false⟩).1.terminatedPids :=
  c5_startup_failure "db" false ⟨some 5, 3, fun _ => false, 9, false⟩
    rfl (by decide) (by decide)

/-- Claim C6: a live process that ignores the graceful signal but exits within
the forceful wait makes terminate report 1 (never -1), and the kill is issued
exactly when the full graceful half-budget timeout/2 has elapsed, so at least
that long passes before escalation. -/
theorem c6_terminate_escalation (n s : Nat) (env : ProcEnv)
    (hn : 0 < n) (hr : env.running n = true)
    (hsig : env.signalErr = false)
    (hignore : env.gracefulExit = none)
    (hkerr : env.killErr = false)
    (hkill : env.killExit = some s) (hs : s ≤ timeoutBudget / 2) :
    (terminate (some n) env).result = 1
    ∧ (terminate (some n) env).result ≠ -1
    ∧ (terminate (some n) env).killAt = some (timeoutBudget / 2)
    ∧ timeoutBudget / 2 ≤ (terminate (some n) env).elapsed := by
  rw [terminate_running n env (Nat.pos_iff_ne_zero.mp hn) hr]
  simp [hsig, hignore, terminateEscalate, hkerr, hkill, hs]

/-- Witness for C6: pid 7 ignores the graceful signal and exits 3 units after
the kill. -/
theorem c6_terminate_escalation_witness :
    (terminate (some 7) ⟨fun n => n == 7, false, none, false, some 3⟩).result = 1
    ∧ (terminate (some 7) ⟨fun n => n == 7, false, none, false, some 3⟩).result ≠ -1
    ∧ (terminate (some 7) ⟨fun n => n == 7, false, none, false, some 3⟩).killAt
        = some (timeoutBudget / 2)
    ∧ timeoutBudget / 2
        ≤ (terminate (some 7) ⟨fun n => n == 7, false, none, false, some 3⟩).elapsed :=
  c6_terminate_escalation 7 3 ⟨fun n => n == 7, false, none, false, some 3⟩
    (by decide) rfl rfl rfl rfl rfl (by decide)

/-- Claim C7: _xkill reports exactly one line per entry under the control
root, its aggregate value is truthy exactly when at least one entry's
terminate returned 1, and on an empty control root it enumerates zero entries
and returns the untouched integer 0 ("nothing terminated"). -/
theorem c7_xkill_aggregate (term : String → Int) (rootEntries : List String) :
    (xkill term rootEntries).entries.length = rootEntries.length
    ∧ (pyTruthy (xkill term rootEntries).ret = true
        ↔ ∃ n ∈ rootEntries, term n = 1)
    ∧ (xkill term ([] : List String)).entries = []
    ∧ (xkill term ([] : List String)).ret = PyRet.int 0 := by
  refine ⟨by simp [xkill], ?_, rfl, rfl⟩
  simp only [xkill]
  rw [pyTruthy_xkill_fold]
  simp [pyTruthy, List.any_eq_true]

/-- Claim C8: for a name never seen before (no pid file), ensure with
restart=false is literally the same computation — same effect record, same
resulting world — as ensure with restart=true, whatever restart flag the
caller passed. -/
theorem c8_fresh_name_equivalence (name : String) (restart : Bool) (w : World)
    (h : w.pidFile = none) :
    ensure name restart w = ensure name true w := by
  simp [ensure, isrunningOn, h]

/-- Witness for C8 at a concrete fresh world. -/
theorem c8_fresh_name_equivalence_witness :
    ensure "db" false ⟨none, 0, fun _ => false, 7, true⟩
      = ensure "db" true ⟨none, 0, fun _ => false, 7, true⟩ :=
  c8_fresh_name_equivalence "db" false ⟨none, 0, fun _ => false, 7, true⟩ rfl

/-- Claim C9: when ensure reuses a live process (restart not forced), the log
handle it registers is opened for reading and its position is end-of-file —
the length of the log at open time — so only output after the call is
observable. -/
theorem c9_reuse_seek_end (name : String) (w : World) (p : Nat)
    (hp : w.pidFile = some p) (hr : w.running p = true) :
    (ensure name false w).1.openedForRead = true
    ∧ (ensure name false w).1.seekEnd = true
    ∧ (ensure name false w).1.readPos = some w.logLen := by
  simp [ensure, isrunningOn, hp, hr]

/-- Witness for C9: reuse of live pid 5 with a 3-byte log leaves the read
position at offset 3. -/
theorem c9_reuse_seek_end_witness :
    (ensure "srv" false ⟨some 5, 3, fun n => n == 5, 9, true⟩).1.openedForRead = true
    ∧ (ensure "srv" false ⟨some 5, 3, fun n => n == 5, 9, true⟩).1.seekEnd = true
    ∧ (ensure "srv" false ⟨some 5, 3, fun n => n == 5, 9, true⟩).1.readPos = some 3 :=
  c9_reuse_seek_end "srv" ⟨some 5, 3, fun n => n == 5, 9, true⟩ 5 rfl rfl

/-- Claim C10: loading tracked state with the pid file absent always succeeds
with pid None, loading a parseable decimal succeeds with that pid, and an
existing pid file whose content int() cannot parse makes construction raise —
the missing-state guarantee does not cover corrupt content. -/
theorem c10_load_pid :
    (loadPid none = Except.ok none)
    ∧ (∀ s n, pyInt s = some n → loadPid (some s) = Except.ok (some n))
    ∧ (∀ s, pyInt s = none →
        loadPid (some s)
          = Except.error ("invalid literal for int() with base 10: " ++ s)) := by
  refine ⟨rfl, ?_, ?_⟩
  · intro s n h
    show (match pyInt s with
      | some m => Except.ok (some m)
      | none => Except.error ("invalid literal for int() with base 10: " ++ s))
        = Except.ok (some n)
    rw [h]
  · intro s h
    show (match pyInt s with
      | some m => Except.ok (some m)
      | none => Except.error ("invalid literal for int() with base 10: " ++ s))
        = Except.error ("invalid literal for int() with base 10: " ++ s)
    rw [h]

/-- Witness for C10: absent file loads as None, "42" parses, "fortytwo"
raises. -/
theorem c10_load_pid_witness :
    loadPid none = Except.ok none
    ∧ loadPid (some "42") = Except.ok (some 42)
    ∧ loadPid (some "fortytwo")
        = Except.error ("invalid literal for int() with base 10: " ++ "fortytwo") :=
  ⟨c10_load_pid.1, c10_load_pid.2.1 "42" 42 (by decide),
    c10_load_pid.2.2 "fortytwo" (by decide)⟩

end Xproc
